import Mathlib

/-
Verification development for the Career-Recommendation repository
(src/main.py and src/original.py).

The Python code is shallowly embedded: text is modelled as List Char
(with String wrappers where convenient), Python dicts with a fixed key
set as association lists, pydantic models as Lean structures, fallible
operations as Except, and the LLM / HTTP backends as oracle functions
supplied explicitly as arguments.
-/

set_option maxRecDepth 4096

/-! ## Python-style string helpers (on List Char) -/

/-- Whitespace as recognised by Python str.strip and the re module
class backslash-s (space, tab, newline, carriage return, vertical tab,
form feed). -/
def pyWsB (c : Char) : Bool :=
  c = ' ' || c = '\t' || c = '\n' || c = '\r' || c = '\x0b' || c = '\x0c'

/-- Python str.strip: drop whitespace from both ends. -/
def pyStrip (l : List Char) : List Char :=
  ((l.dropWhile pyWsB).reverse.dropWhile pyWsB).reverse

/-- Python str.split with separator a single newline. -/
def splitNl : List Char → List (List Char)
  | [] => [[]]
  | c :: rest =>
    let r := splitNl rest
    if c = '\n' then [] :: r
    else
      match r with
      | [] => [[c]]
      | h :: t => (c :: h) :: t

/-- Python str.lower on ASCII text. -/
def pyLower (l : List Char) : List Char := l.map Char.toLower

/-- Python str.replace for a single character pattern. -/
def pyReplaceChar (a b : Char) (l : List Char) : List Char :=
  l.map (fun c => if c = a then b else c)

/-- Python str.replace (all non-overlapping occurrences, left to right),
with a fuel argument for termination. -/
def replaceSubF : Nat → List Char → List Char → List Char → List Char
  | 0, _, _, l => l
  | fuel + 1, pat, rep, l =>
    match l with
    | [] => []
    | c :: rest =>
      if pat.isPrefixOf l && !pat.isEmpty then
        rep ++ replaceSubF fuel pat rep (l.drop pat.length)
      else
        c :: replaceSubF fuel pat rep rest

/-- Python str.replace on String values. -/
def strReplace (s pat rep : String) : String :=
  String.mk (replaceSubF (s.toList.length + 1) pat.toList rep.toList s.toList)

/-- Python str.join with a separator, as in sep.join(items). -/
def pyJoin (sep : String) : List String → String
  | [] => ""
  | [x] => x
  | x :: y :: rest => x ++ sep ++ pyJoin sep (y :: rest)

/-- Python str.endswith for a single character. -/
def endsWithChar (c : Char) (l : List Char) : Bool :=
  match l.getLast? with
  | some d => d = c
  | none => false

/-- Python str.startswith for a single character. -/
def startsWithChar (c : Char) (l : List Char) : Bool :=
  match l with
  | d :: _ => d = c
  | [] => false

/-- Python str.find for a single character: index of the first
occurrence, or none. -/
def pyFind (c : Char) : List Char → Option Nat
  | [] => none
  | x :: xs => if x = c then some 0 else (pyFind c xs).map (· + 1)

/-- Python str.rfind for a single character: index of the last
occurrence, or none. -/
def pyRFind (c : Char) (l : List Char) : Option Nat :=
  match pyFind c l.reverse with
  | none => none
  | some i => some (l.length - 1 - i)

/-- Python enumerate, with an explicit start index. -/
def pyEnum {α : Type} : Nat → List α → List (Nat × α)
  | _, [] => []
  | n, a :: as => (n, a) :: pyEnum (n + 1) as

/-! ## DomainKnowledgeBase._parse_domain_content (src/main.py lines 176-205)

The sections dict maps the nine fixed keys to either a string (name,
description) or a list of strings. It is modelled as an association
list over FieldVal. Appending to a string-valued entry raises
AttributeError in Python; that is modelled as an Except error. -/

inductive FieldVal where
  | str : String → FieldVal
  | list : List String → FieldVal
deriving DecidableEq, Repr

/-- The initial sections dict of _parse_domain_content. -/
def initSections : List (String × FieldVal) :=
  [("name", .str ""), ("description", .str ""), ("core_skills", .list []),
   ("specializations", .list []), ("tools_and_technologies", .list []),
   ("industry_standards", .list []), ("career_levels", .list []),
   ("certification_paths", .list []), ("key_companies", .list [])]

/-- Models sections[current_section].append(item) guarded by the
membership test: a missing key is a silent no-op, a string-valued key
raises AttributeError. -/
def updateAppend : List (String × FieldVal) → String → String →
    Except String (List (String × FieldVal))
  | [], _, _ => .ok []
  | (k, v) :: rest, key, item =>
    if k = key then
      match v with
      | .list xs => .ok ((k, .list (xs ++ [item])) :: rest)
      | .str _ => .error "AttributeError: str object has no attribute append"
    else do
      let r ← updateAppend rest key item
      .ok ((k, v) :: r)

/-- Models sections[key] = value (dict assignment: replaces the value
of an existing key, or adds the key at the end). -/
def setStrField : List (String × FieldVal) → String → String →
    List (String × FieldVal)
  | [], key, value => [(key, .str value)]
  | (k, v) :: rest, key, value =>
    if k = key then (k, .str value) :: rest
    else (k, v) :: setStrField rest key value

/-- Python truthiness of the current_section variable (None and the
empty string are falsy). -/
def curTruthy : Option String → Bool
  | none => false
  | some s => s ≠ ""

/-- The section key computed from a header line: line[:-1].lower().replace(space, underscore). -/
def sectionKeyOf (l : List Char) : String :=
  String.mk (pyReplaceChar ' ' '_' (pyLower (l.dropLast)))

/-- The per-line loop of _parse_domain_content. -/
def parseDomainLines : List (List Char) → Option String →
    List (String × FieldVal) → Except String (List (String × FieldVal))
  | [], _, sections => .ok sections
  | rawLine :: rest, cur, sections =>
    let l := pyStrip rawLine
    if endsWithChar ':' l then
      parseDomainLines rest (some (sectionKeyOf l)) sections
    else if startsWithChar '-' l && curTruthy cur then do
      let sections2 ← updateAppend sections (cur.getD "") (String.mk (pyStrip (l.drop 1)))
      parseDomainLines rest cur sections2
    else if !l.isEmpty && curTruthy cur then
      if cur = some "name" then
        parseDomainLines rest cur
          (setStrField sections "name"
            (String.mk (pyStrip (replaceSubF (l.length + 1) "Name:".toList [] l))))
      else if cur = some "description" then
        parseDomainLines rest cur
          (setStrField sections "description"
            (String.mk (pyStrip (replaceSubF (l.length + 1) "Description:".toList [] l))))
      else
        parseDomainLines rest cur sections
    else
      parseDomainLines rest cur sections

/-- DomainKnowledgeBase._parse_domain_content. -/
def parseDomainContent (content : String) : Except String (List (String × FieldVal)) :=
  parseDomainLines (splitNl content.toList) none initSections

/-- Dict lookup on the sections association list (keys are unique). -/
def lookupSec (k : String) : List (String × FieldVal) → Option FieldVal
  | [] => none
  | (k2, v) :: rest => if k2 = k then some v else lookupSec k rest

/-- DomainKnowledgeBase._get_default_domain (src/main.py lines 207-218),
as the same dict shape. -/
def defaultDomainSections : List (String × FieldVal) :=
  [("name", .str "General Technology"),
   ("description", .str "General technology and computing skills"),
   ("core_skills", .list ["Programming", "System Design", "Problem Solving"]),
   ("specializations", .list ["Software Development", "Data Science", "Cloud Computing"]),
   ("tools_and_technologies", .list ["Programming Languages", "Databases", "Cloud Platforms"]),
   ("industry_standards", .list ["Best Practices", "Security", "Performance"]),
   ("career_levels", .list ["Entry Level", "Mid Level", "Senior Level"]),
   ("certification_paths", .list ["General Certifications"]),
   ("key_companies", .list ["Tech Companies"])]

/-! ## Pydantic data models (src/main.py lines 18-78)

Each pydantic BaseModel becomes a Lean structure; the Field defaults
are used by the JSON deserialisation functions further below. -/

structure CourseDetail where
  course_name : String
  platform : String
  link : String
  duration : String
  difficulty_level : String
  prerequisites : List String
  key_topics : List String
  certification : Bool
  price : Option String
deriving DecidableEq, Repr

structure ProjectDetail where
  title : String
  description : String
  skills_practiced : List String
  difficulty_level : String
  estimated_duration : String
  resources_needed : List String
  learning_outcomes : List String
  implementation_steps : List String
deriving DecidableEq, Repr

structure SkillDetail where
  skill_name : String
  importance_level : String
  time_to_master : String
  prerequisites : List String
  resources : List String
  industry_applications : List String
  proficiency_metrics : List String
deriving DecidableEq, Repr

structure CareerPath where
  title : String
  description : String
  salary_range : String
  required_experience : String
  key_responsibilities : List String
  required_skills : List String
  growth_opportunities : List String
  industry_demand : String
  typical_job_titles : List String
deriving DecidableEq, Repr

structure JobListing where
  job_title : String
  company : String
  location : String
  platform : String
  link : String
  posted_date : String
  description : String
deriving DecidableEq, Repr

structure CareerGuidance where
  domain_overview : String
  current_industry_trends : List String
  skill_roadmap : List SkillDetail
  recommended_courses : List CourseDetail
  project_suggestions : List ProjectDetail
  career_growth_paths : List CareerPath
  certifications_needed : List String
  networking_suggestions : List String
  interview_preparation : List String
  industry_resources : List String
deriving DecidableEq, Repr

/-- A well-formed domain-knowledge dict, as produced by the loader:
all nine keys are always present (an invariant established over the
sections dict below), so the dict is modelled as a structure and the
Python domain_knowledge.get(key, default) calls collapse to plain
field access. -/
structure DomainProfile where
  name : String
  description : String
  core_skills : List String
  specializations : List String
  tools_and_technologies : List String
  industry_standards : List String
  career_levels : List String
  certification_paths : List String
  key_companies : List String
deriving DecidableEq, Repr

/-! ## JSON values and a model of json.loads

The parser is a recursive-descent parser over List Char with a fuel
argument; jsonLoads supplies ample fuel and requires the whole input
to be consumed (Python raises "Extra data" otherwise). Numeric
literals are modelled as integers; fractional and exponent literals
are rejected by the model. Duplicate object keys overwrite earlier
ones, as Python dicts do. -/

inductive JsonVal where
  | null : JsonVal
  | bool : Bool → JsonVal
  | num : Int → JsonVal
  | str : String → JsonVal
  | arr : List JsonVal → JsonVal
  | obj : List (String × JsonVal) → JsonVal

/-- JSON whitespace accepted between tokens by json.loads. -/
def jsonWsB (c : Char) : Bool := c = ' ' || c = '\t' || c = '\n' || c = '\r'

def skipJsonWs (l : List Char) : List Char := l.dropWhile jsonWsB

def hexVal (c : Char) : Option Nat :=
  if '0' ≤ c && c ≤ '9' then some (c.toNat - 48)
  else if 'a' ≤ c && c ≤ 'f' then some (c.toNat - 87)
  else if 'A' ≤ c && c ≤ 'F' then some (c.toNat - 55)
  else none

def escCharOf (c : Char) : Option Char :=
  if c = '"' then some '"'
  else if c = '\\' then some '\\'
  else if c = '/' then some '/'
  else if c = 'b' then some '\x08'
  else if c = 'f' then some '\x0c'
  else if c = 'n' then some '\n'
  else if c = 'r' then some '\r'
  else if c = 't' then some '\t'
  else none

/-- Reads the body of a JSON string literal after the opening quote,
returning the decoded characters and the remaining input. -/
def parseJsonStringF : Nat → List Char → Except String (List Char × List Char)
  | 0, _ => .error "fuel exhausted"
  | _ + 1, [] => .error "Unterminated string"
  | fuel + 1, c :: rest =>
    if c = '"' then .ok ([], rest)
    else if c = '\\' then
      match rest with
      | [] => .error "Unterminated string"
      | e :: rest2 =>
        if e = 'u' then
          match rest2 with
          | h1 :: h2 :: h3 :: h4 :: rest3 =>
            match hexVal h1, hexVal h2, hexVal h3, hexVal h4 with
            | some a, some b, some c2, some d => do
              let (s, r) ← parseJsonStringF fuel rest3
              .ok (Char.ofNat (((a * 16 + b) * 16 + c2) * 16 + d) :: s, r)
            | _, _, _, _ => .error "Invalid unicode escape"
          | _ => .error "Invalid unicode escape"
        else
          match escCharOf e with
          | some ec => do
            let (s, r) ← parseJsonStringF fuel rest2
            .ok (ec :: s, r)
          | none => .error "Invalid escape"
    else do
      let (s, r) ← parseJsonStringF fuel rest
      .ok (c :: s, r)

def digitsToNat (l : List Char) : Nat :=
  l.foldl (fun acc c => acc * 10 + (c.toNat - 48)) 0

/-- Parses an integer JSON numeric literal. -/
def parseJsonNumber (l : List Char) : Except String (JsonVal × List Char) :=
  let (neg, l1) := match l with
    | '-' :: rest => (true, rest)
    | _ => (false, l)
  let ds := l1.takeWhile Char.isDigit
  let rest := l1.dropWhile Char.isDigit
  if ds.isEmpty then .error "Expecting value"
  else
    match rest with
    | '.' :: _ => .error "fractional numeric literals are not modelled"
    | 'e' :: _ => .error "exponent numeric literals are not modelled"
    | 'E' :: _ => .error "exponent numeric literals are not modelled"
    | _ =>
      let n : Int := Int.ofNat (digitsToNat ds)
      .ok (.num (if neg then -n else n), rest)

/-- Python dict insertion while parsing an object: a repeated key
overwrites the earlier value in place. -/
def upsertKV : List (String × JsonVal) → String → JsonVal → List (String × JsonVal)
  | [], k, v => [(k, v)]
  | (k2, v2) :: rest, k, v =>
    if k2 = k then (k2, v) :: rest else (k2, v2) :: upsertKV rest k v

mutual

def parseJsonValueF : Nat → List Char → Except String (JsonVal × List Char)
  | 0, _ => .error "fuel exhausted"
  | fuel + 1, l =>
    match skipJsonWs l with
    | [] => .error "Expecting value"
    | c :: rest =>
      if c = '{' then
        match skipJsonWs rest with
        | '}' :: rest2 => .ok (.obj [], rest2)
        | _ => parseJsonMembersF fuel rest []
      else if c = '[' then
        match skipJsonWs rest with
        | ']' :: rest2 => .ok (.arr [], rest2)
        | _ => parseJsonItemsF fuel rest []
      else if c = '"' then do
        let (s, r) ← parseJsonStringF (rest.length + 1) rest
        .ok (.str (String.mk s), r)
      else if c = 't' then
        match rest with
        | 'r' :: 'u' :: 'e' :: r => .ok (.bool true, r)
        | _ => .error "Expecting value"
      else if c = 'f' then
        match rest with
        | 'a' :: 'l' :: 's' :: 'e' :: r => .ok (.bool false, r)
        | _ => .error "Expecting value"
      else if c = 'n' then
        match rest with
        | 'u' :: 'l' :: 'l' :: r => .ok (.null, r)
        | _ => .error "Expecting value"
      else
        parseJsonNumber (c :: rest)

def parseJsonMembersF : Nat → List Char → List (String × JsonVal) →
    Except String (JsonVal × List Char)
  | 0, _, _ => .error "fuel exhausted"
  | fuel + 1, l, acc =>
    match skipJsonWs l with
    | '"' :: rest => do
      let (k, r1) ← parseJsonStringF (rest.length + 1) rest
      match skipJsonWs r1 with
      | ':' :: r2 => do
        let (v, r3) ← parseJsonValueF fuel r2
        let acc2 := upsertKV acc (String.mk k) v
        match skipJsonWs r3 with
        | ',' :: r4 => parseJsonMembersF fuel r4 acc2
        | '}' :: r4 => .ok (.obj acc2, r4)
        | _ => .error "Expecting comma delimiter"
      | _ => .error "Expecting colon delimiter"
    | _ => .error "Expecting property name enclosed in double quotes"

def parseJsonItemsF : Nat → List Char → List JsonVal →
    Except String (JsonVal × List Char)
  | 0, _, _ => .error "fuel exhausted"
  | fuel + 1, l, acc => do
    let (v, r1) ← parseJsonValueF fuel l
    match skipJsonWs r1 with
    | ',' :: r2 => parseJsonItemsF fuel r2 (acc ++ [v])
    | ']' :: r2 => .ok (.arr (acc ++ [v]), r2)
    | _ => .error "Expecting comma delimiter"

end

/-- Model of json.loads: parse one value and require only whitespace
to remain. -/
def jsonLoads (l : List Char) : Except String JsonVal := do
  let (v, rest) ← parseJsonValueF (l.length + 1) l
  if (skipJsonWs rest).isEmpty then .ok v else .error "Extra data"

/-! ## _fix_json_issues (src/main.py lines 542-555)

The three re.sub substitutions, applied in source order. Each scanning
function takes fuel (always sufficient, since at least one character
is consumed per step). -/

/-- re.sub of comma + optional whitespace + closing bracket or brace,
replaced by whitespace + bracket. -/
def fixCommasF : Nat → List Char → List Char
  | 0, l => l
  | _ + 1, [] => []
  | fuel + 1, c :: rest =>
    if c = ',' then
      let ws := rest.takeWhile pyWsB
      match rest.dropWhile pyWsB with
      | b :: rest2 =>
        if b = '}' || b = ']' then ws ++ b :: fixCommasF fuel rest2
        else c :: fixCommasF fuel rest
      | [] => c :: fixCommasF fuel rest
    else c :: fixCommasF fuel rest

def fixTrailingCommas (l : List Char) : List Char := fixCommasF (l.length + 1) l

/-- re.sub of a double quote followed only by trailing whitespace at
the end of the string, replaced by quote + closing brace. -/
def fixUnclosedTail (l : List Char) : List Char :=
  let t := (l.reverse.dropWhile pyWsB).reverse
  match t.getLast? with
  | some '"' => t ++ ['}']
  | _ => l

/-- Character class of the bare-token group: letters, digits and
whitespace. -/
def isBareTokChar (c : Char) : Bool := c.isAlpha || c.isDigit || pyWsB c

/-- re.sub of colon + whitespace + bare word token + comma-or-brace,
replaced by colon, one space, the token in double quotes, and the
delimiter. -/
def fixBareF : Nat → List Char → List Char
  | 0, l => l
  | _ + 1, [] => []
  | fuel + 1, c :: rest =>
    if c = ':' then
      match rest.dropWhile pyWsB with
      | t :: _ =>
        if t.isAlpha then
          let afterWs := rest.dropWhile pyWsB
          let tok := afterWs.takeWhile isBareTokChar
          match afterWs.dropWhile isBareTokChar with
          | sep :: rest4 =>
            if sep = ',' || sep = '}' then
              ':' :: ' ' :: '"' :: (tok ++ '"' :: sep :: fixBareF fuel rest4)
            else c :: fixBareF fuel rest
          | [] => c :: fixBareF fuel rest
        else c :: fixBareF fuel rest
      | [] => c :: fixBareF fuel rest
    else c :: fixBareF fuel rest

def fixBareTokens (l : List Char) : List Char := fixBareF (l.length + 1) l

/-- CareerRecommendationSystem._fix_json_issues. -/
def fixJsonIssues (l : List Char) : List Char :=
  fixBareTokens (fixUnclosedTail (fixTrailingCommas l))

/-! ## _extract_json_from_response (src/main.py lines 515-540) -/

/-- CareerRecommendationSystem._extract_json_from_response: try the
whole text, else slice from the first open brace to the last close
brace, repair, and reparse; a failure of the reparse propagates. -/
def extractJson (t : List Char) : Except String JsonVal :=
  match jsonLoads t with
  | .ok v => .ok v
  | .error _ =>
    match pyFind '{' t, pyRFind '}' t with
    | some js, some je =>
      if js < je + 1 then
        jsonLoads (fixJsonIssues ((t.drop js).take (je + 1 - js)))
      else .error "Could not find JSON object in response"
    | _, _ => .error "Could not find JSON object in response"

/-! ## Deserialisation into the pydantic models

CareerGuidance(**parsed_data) with pydantic BaseModel semantics:
unknown keys are ignored, absent keys take the declared Field default,
and a present key whose value does not fit the declared type raises a
validation error (routed to the caller as an Except error). -/

/-- Dict lookup on a parsed JSON object (keys unique after upsertKV). -/
def dictGet (k : String) : List (String × JsonVal) → Option JsonVal
  | [] => none
  | (k2, v) :: rest => if k2 = k then some v else dictGet k rest

def asStr (v : Option JsonVal) (dflt : String) : Except String String :=
  match v with
  | none => .ok dflt
  | some (.str s) => .ok s
  | some _ => .error "validation error: str expected"

def asStrList (v : Option JsonVal) : Except String (List String) :=
  match v with
  | none => .ok []
  | some (.arr xs) =>
    xs.mapM (fun x =>
      match x with
      | .str s => Except.ok s
      | _ => Except.error "validation error: str expected")
  | some _ => .error "validation error: list expected"

def asBool (v : Option JsonVal) (dflt : Bool) : Except String Bool :=
  match v with
  | none => .ok dflt
  | some (.bool b) => .ok b
  | some _ => .error "validation error: bool expected"

def asOptStr (v : Option JsonVal) : Except String (Option String) :=
  match v with
  | none => .ok none
  | some .null => .ok none
  | some (.str s) => .ok (some s)
  | some _ => .error "validation error: optional str expected"

def asListOf {α : Type} (f : JsonVal → Except String α) (v : Option JsonVal) :
    Except String (List α) :=
  match v with
  | none => .ok []
  | some (.arr xs) => xs.mapM f
  | some _ => .error "validation error: list expected"

def skillDetailOfJson (v : JsonVal) : Except String SkillDetail :=
  match v with
  | .obj kvs => do
    let a ← asStr (dictGet "skill_name" kvs) ""
    let b ← asStr (dictGet "importance_level" kvs) ""
    let c ← asStr (dictGet "time_to_master" kvs) ""
    let d ← asStrList (dictGet "prerequisites" kvs)
    let e ← asStrList (dictGet "resources" kvs)
    let f ← asStrList (dictGet "industry_applications" kvs)
    let g ← asStrList (dictGet "proficiency_metrics" kvs)
    .ok ⟨a, b, c, d, e, f, g⟩
  | _ => .error "validation error: object expected"

def courseDetailOfJson (v : JsonVal) : Except String CourseDetail :=
  match v with
  | .obj kvs => do
    let a ← asStr (dictGet "course_name" kvs) ""
    let b ← asStr (dictGet "platform" kvs) ""
    let c ← asStr (dictGet "link" kvs) ""
    let d ← asStr (dictGet "duration" kvs) ""
    let e ← asStr (dictGet "difficulty_level" kvs) ""
    let f ← asStrList (dictGet "prerequisites" kvs)
    let g ← asStrList (dictGet "key_topics" kvs)
    let h ← asBool (dictGet "certification" kvs) false
    let i ← asOptStr (dictGet "price" kvs)
    .ok ⟨a, b, c, d, e, f, g, h, i⟩
  | _ => .error "validation error: object expected"

def projectDetailOfJson (v : JsonVal) : Except String ProjectDetail :=
  match v with
  | .obj kvs => do
    let a ← asStr (dictGet "title" kvs) ""
    let b ← asStr (dictGet "description" kvs) ""
    let c ← asStrList (dictGet "skills_practiced" kvs)
    let d ← asStr (dictGet "difficulty_level" kvs) ""
    let e ← asStr (dictGet "estimated_duration" kvs) ""
    let f ← asStrList (dictGet "resources_needed" kvs)
    let g ← asStrList (dictGet "learning_outcomes" kvs)
    let h ← asStrList (dictGet "implementation_steps" kvs)
    .ok ⟨a, b, c, d, e, f, g, h⟩
  | _ => .error "validation error: object expected"

def careerPathOfJson (v : JsonVal) : Except String CareerPath :=
  match v with
  | .obj kvs => do
    let a ← asStr (dictGet "title" kvs) ""
    let b ← asStr (dictGet "description" kvs) ""
    let c ← asStr (dictGet "salary_range" kvs) ""
    let d ← asStr (dictGet "required_experience" kvs) ""
    let e ← asStrList (dictGet "key_responsibilities" kvs)
    let f ← asStrList (dictGet "required_skills" kvs)
    let g ← asStrList (dictGet "growth_opportunities" kvs)
    let h ← asStr (dictGet "industry_demand" kvs) ""
    let i ← asStrList (dictGet "typical_job_titles" kvs)
    .ok ⟨a, b, c, d, e, f, g, h, i⟩
  | _ => .error "validation error: object expected"

/-- The declared field names of CareerGuidance. -/
def guidanceKeys : List String :=
  ["domain_overview", "current_industry_trends", "skill_roadmap",
   "recommended_courses", "project_suggestions", "career_growth_paths",
   "certifications_needed", "networking_suggestions",
   "interview_preparation", "industry_resources"]

/-- The declared field names of SkillDetail. -/
def skillDetailKeys : List String :=
  ["skill_name", "importance_level", "time_to_master", "prerequisites",
   "resources", "industry_applications", "proficiency_metrics"]

/-- CareerGuidance(**parsed_data): builds the record from a parsed
JSON object, ignoring unknown keys and defaulting absent ones. -/
def careerGuidanceOfJson (v : JsonVal) : Except String CareerGuidance :=
  match v with
  | .obj kvs => do
    let a ← asStr (dictGet "domain_overview" kvs) ""
    let b ← asStrList (dictGet "current_industry_trends" kvs)
    let c ← asListOf skillDetailOfJson (dictGet "skill_roadmap" kvs)
    let d ← asListOf courseDetailOfJson (dictGet "recommended_courses" kvs)
    let e ← asListOf projectDetailOfJson (dictGet "project_suggestions" kvs)
    let f ← asListOf careerPathOfJson (dictGet "career_growth_paths" kvs)
    let g ← asStrList (dictGet "certifications_needed" kvs)
    let h ← asStrList (dictGet "networking_suggestions" kvs)
    let i ← asStrList (dictGet "interview_preparation" kvs)
    let j ← asStrList (dictGet "industry_resources" kvs)
    .ok ⟨a, b, c, d, e, f, g, h, i, j⟩
  | _ => .error "validation error: object expected"

/-- The parse step of generate_career_guidance on a reply text:
_extract_json_from_response followed by CareerGuidance(**parsed_data). -/
def parseGuidance (t : String) : Except String CareerGuidance := do
  let v ← extractJson t.toList
  careerGuidanceOfJson v

/-! ## Prompt construction (src/main.py lines 307-313, 342-407, 420-513)

The prompts interpolate the domain, level, query and profile fields
into large fixed f-string templates. The interpolated structure is
embedded faithfully; the long fixed instructional passages (the JSON
schema walkthrough and formatting rules) are carried as condensed
constant text, since every theorem below quantifies over the
LLM oracle and none depends on the prompt wording. -/

/-- The f-string prompt of ask_domain_question (verbatim). -/
def askPrompt (domain query : String) : String :=
  "As a career counselor specializing in " ++ domain ++
  ", please provide a detailed, \n            actionable answer to this question: " ++
  query ++
  "\n            \n            Focus on practical advice and specific next steps the person can take."

/-- Fixed instructional tail of _create_guidance_prompt (schema text
condensed). -/
def guidanceSchemaText : String :=
  "\n        Your response must be in valid JSON format with the CareerGuidance structure.\n        Respond with ONLY valid JSON - no markdown, no explanations, no extra text.\n        "

/-- CareerRecommendationSystem._create_guidance_prompt. -/
def createGuidancePrompt (domain level : String) (dk : DomainProfile) : String :=
  "\n        You are a senior career counselor and industry expert. The domain is: " ++
  domain ++
  "\n        Focus on beginner-level professionals and all level professionals in this domain.\n        Create a comprehensive career development plan for a " ++
  level ++
  " professional in this domain.\n        \n        Domain Knowledge Context:\n        Description: " ++
  dk.description ++
  "\n        Core Skills: " ++ pyJoin ", " dk.core_skills ++
  "\n        Specializations: " ++ pyJoin ", " dk.specializations ++
  "\n        Tools & Technologies: " ++ pyJoin ", " dk.tools_and_technologies ++
  "\n        Industry Standards: " ++ pyJoin ", " dk.industry_standards ++
  guidanceSchemaText ++
  "\n        Make all recommendations highly specific to " ++ domain ++ " and " ++
  level ++ " level.\n        "

/-- The simplified prompt built inside _generate_with_simplified_prompt
(schema example condensed). -/
def simplifiedPrompt (domain level : String) : String :=
  "\n        Create a career guidance plan for a " ++ level ++
  " level professional in " ++ domain ++
  ".\n        \n        Provide a JSON response with this exact structure.\n        \n        Respond only with valid JSON.\n        "

/-! ## _generate_fallback_guidance (src/main.py lines 560-779) -/

/-- The skill_roadmap comprehension of _generate_fallback_guidance:
enumerate over core_skills[:5] (or three default names when the list
is empty). -/
def fallbackSkillRoadmap (domain level : String) (core_skills : List String) :
    List SkillDetail :=
  (pyEnum 0 (if core_skills.isEmpty then
      [domain ++ " Fundamentals", "Problem Solving", "Technical Skills"]
    else core_skills.take 5)).map (fun p =>
    { skill_name := p.2,
      importance_level := if p.1 < 3 then "Essential" else "Important",
      time_to_master := if level = "Beginner" then "3-6 months" else "1-3 months",
      prerequisites := if p.1 = 0 then [] else core_skills.take 1,
      resources :=
        ["Online tutorials and courses", "Practice exercises and projects",
         "Community forums and documentation"],
      industry_applications :=
        ["Entry-level " ++ domain ++ " positions",
         "Freelance " ++ domain ++ " projects",
         "Personal " ++ domain ++ " development"],
      proficiency_metrics :=
        ["Complete beginner projects", "Build portfolio applications",
         "Pass practical assessments"] })

/-- The recommended_courses list of _generate_fallback_guidance. -/
def fallbackCourses (domain level : String)
    (core_skills specializations tools_tech : List String) : List CourseDetail :=
  [{ course_name := "Complete " ++ domain ++ " Course for " ++ level ++ "s",
     platform := "Coursera",
     link := "https://coursera.org",
     duration := "8-12 weeks",
     difficulty_level := level,
     prerequisites := [],
     key_topics :=
       if core_skills.isEmpty then [domain ++ " basics"] else core_skills.take 3,
     certification := true,
     price := some "$39-79/month" },
   { course_name := domain ++ " Fundamentals",
     platform := "Udemy",
     link := "https://udemy.com",
     duration := "6-8 weeks",
     difficulty_level := level,
     prerequisites := [],
     key_topics :=
       if specializations.isEmpty then [domain ++ " concepts"]
       else specializations.take 3,
     certification := true,
     price := some "$50-100" },
   { course_name := "Practical " ++ domain ++ " Projects",
     platform := "edX",
     link := "https://edx.org",
     duration := "4-6 weeks",
     difficulty_level := level,
     prerequisites := if core_skills.isEmpty then [] else core_skills.take 1,
     key_topics :=
       if tools_tech.isEmpty then ["hands-on practice"] else tools_tech.take 3,
     certification := true,
     price := some "Free (Verified Certificate: $99)" }]

/-- The project_suggestions list of _generate_fallback_guidance. -/
def fallbackProjects (domain level : String)
    (core_skills tools_tech : List String) : List ProjectDetail :=
  [{ title := domain ++ " Portfolio Project",
     description :=
       "Build a comprehensive " ++ domain ++
       " project that demonstrates your understanding of " ++
       (if core_skills.isEmpty then "core concepts"
        else pyJoin ", " (core_skills.take 3)) ++
       ". This project will serve as a cornerstone piece for your portfolio.",
     skills_practiced :=
       if core_skills.isEmpty then [domain ++ " fundamentals"]
       else core_skills.take 4,
     difficulty_level := level,
     estimated_duration := "4-6 weeks",
     resources_needed :=
       ["Computer with internet access", "Basic development environment",
        "Online learning resources"],
     learning_outcomes :=
       ["Understand " ++ domain ++ " fundamentals",
        "Build practical problem-solving skills",
        "Create a portfolio-worthy project", "Gain hands-on experience"],
     implementation_steps :=
       ["Define project scope and requirements",
        "Set up development environment",
        "Break down project into smaller tasks",
        "Implement core functionality", "Test and debug the solution",
        "Document and present the project"] },
   { title := "Real-world " ++ domain ++ " Application",
     description :=
       "Create a practical application that solves a real-world problem using " ++
       domain ++ " principles and " ++
       (if tools_tech.isEmpty then "modern tools"
        else pyJoin ", " (tools_tech.take 2)) ++ ".",
     skills_practiced :=
       if core_skills.isEmpty then [domain ++ " application"]
       else core_skills.take 3,
     difficulty_level := level,
     estimated_duration := "3-4 weeks",
     resources_needed :=
       ["Development tools and software", "Sample datasets or materials",
        "Documentation and tutorials"],
     learning_outcomes :=
       ["Apply theoretical knowledge to practical problems",
        "Learn industry best practices",
        "Build confidence in problem-solving"],
     implementation_steps :=
       ["Identify a real-world problem to solve",
        "Research existing solutions", "Design your approach",
        "Implement and iterate", "Share and get feedback"] }]

/-- The career_growth_paths list of _generate_fallback_guidance:
always exactly the Junior and Mid-level entries. -/
def fallbackCareerPaths (domain level : String)
    (core_skills specializations : List String) : List CareerPath :=
  [{ title := "Junior " ++ domain ++ " Professional",
     description :=
       "Entry-level position focusing on " ++
       (if specializations.isEmpty then "foundational skills"
        else pyJoin ", " (specializations.take 2)) ++
       " with opportunities for growth and learning.",
     salary_range :=
       if level = "Beginner" then "$45,000 - $65,000" else "$55,000 - $75,000",
     required_experience := "0-2 years",
     key_responsibilities :=
       ["Assist with " ++ domain ++ " projects and tasks",
        "Learn and apply industry best practices",
        "Collaborate with senior team members",
        "Contribute to project documentation"],
     required_skills :=
       if core_skills.isEmpty then [domain ++ " basics"]
       else core_skills.take 4,
     growth_opportunities :=
       ["Senior " ++ domain ++ " Professional", domain ++ " Specialist",
        domain ++ " Team Lead", "Project Manager"],
     industry_demand := "High",
     typical_job_titles :=
       ["Junior " ++ domain ++ " Analyst", domain ++ " Associate",
        "Entry-level " ++ domain ++ " Developer", domain ++ " Trainee"] },
   { title := "Mid-level " ++ domain ++ " Professional",
     description :=
       "Experienced role with responsibility for " ++
       (if specializations.isEmpty then "advanced projects"
        else pyJoin ", " (specializations.take 3)) ++
       " and mentoring junior staff.",
     salary_range := "$65,000 - $90,000",
     required_experience := "2-5 years",
     key_responsibilities :=
       ["Lead " ++ domain ++ " projects independently",
        "Mentor junior team members", "Design and implement solutions",
        "Communicate with stakeholders"],
     required_skills :=
       if core_skills.isEmpty then ["Advanced " ++ domain ++ " skills"]
       else core_skills,
     growth_opportunities :=
       ["Senior " ++ domain ++ " Professional", domain ++ " Manager",
        "Technical Lead", "Consultant"],
     industry_demand := "High",
     typical_job_titles :=
       [domain ++ " Analyst", domain ++ " Developer",
        domain ++ " Specialist", domain ++ " Consultant"] }]

/-- CareerRecommendationSystem._generate_fallback_guidance of
src/main.py: a pure function of (domain, level, profile); no LLM
oracle is consulted. -/
def fallbackGuidance (domain level : String) (dk : DomainProfile) : CareerGuidance :=
  let core_skills := dk.core_skills
  let specializations := dk.specializations
  let tools_tech := dk.tools_and_technologies
  { domain_overview :=
      "The " ++ domain ++ " field is a dynamic and growing area that combines " ++
      pyJoin ", " (core_skills.take 3) ++
      " to solve real-world problems. As a " ++ level ++
      " professional, you\x27ll focus on building foundational skills and gaining practical experience through hands-on projects.",
    current_industry_trends :=
      ["Increased demand for " ++ domain ++ " professionals",
       "Growing adoption of " ++ tools_tech.headD "modern tools",
       "Remote work opportunities expanding",
       "Focus on practical, project-based learning",
       "Industry emphasis on continuous skill development"],
    skill_roadmap := fallbackSkillRoadmap domain level core_skills,
    recommended_courses :=
      fallbackCourses domain level core_skills specializations tools_tech,
    project_suggestions := fallbackProjects domain level core_skills tools_tech,
    career_growth_paths :=
      fallbackCareerPaths domain level core_skills specializations,
    certifications_needed :=
      ["Professional " ++ domain ++ " Certification",
       domain ++ " Fundamentals Certificate",
       "Industry-recognized " ++ domain ++ " Credential"] ++
      dk.certification_paths.take 3,
    networking_suggestions :=
      ["Join local " ++ domain ++ " meetups and user groups",
       "Attend " ++ domain ++ " conferences and workshops",
       "Connect with " ++ domain ++ " professionals on LinkedIn",
       "Participate in online " ++ domain ++ " communities",
       "Follow industry leaders and companies on social media",
       "Join professional " ++ domain ++ " associations"],
    interview_preparation :=
      ["Study " ++ domain ++ " fundamentals and core concepts",
       "Practice explaining your projects clearly",
       "Prepare examples of problem-solving experiences",
       "Review common technical questions",
       "Practice coding/practical exercises",
       "Prepare questions about company culture and growth"],
    industry_resources :=
      ["Leading " ++ domain ++ " companies: " ++
         pyJoin ", " (dk.key_companies.take 5),
       "Key technologies: " ++
         pyJoin ", " (if tools_tech.isEmpty then ["Modern tools and frameworks"]
           else tools_tech.take 5),
       "Professional communities: " ++ domain ++ " forums and Discord servers",
       "Learning platforms: Coursera, Udemy, Pluralsight, LinkedIn Learning",
       "Industry publications and blogs about " ++ domain,
       "Open source projects and GitHub repositories"] }

/-! ## _generate_fallback_guidance of src/original.py (lines 275-344) -/

/-- The fallback generator of the original (VertexAI) variant:
one SkillDetail per core skill (uncapped) and one CareerPath per
declared career level. -/
def origFallbackGuidance (domain level : String) (dk : DomainProfile) : CareerGuidance :=
  { domain_overview := dk.description,
    current_industry_trends := dk.industry_standards,
    skill_roadmap :=
      (pyEnum 0 dk.core_skills).map (fun p =>
        { skill_name := p.2,
          importance_level := if p.1 < 3 then "Essential" else "Important",
          time_to_master := if level = "Beginner" then "3-6 months" else "1-2 months",
          prerequisites := [],
          resources := [],
          industry_applications := [],
          proficiency_metrics := [] }),
    recommended_courses :=
      (dk.core_skills.take 3).map (fun skill =>
        { course_name := skill ++ " for " ++ level ++ "s",
          platform := "Coursera/Udemy",
          link := "",
          duration := "8-12 weeks",
          difficulty_level := level,
          prerequisites := [],
          key_topics := [],
          certification := true,
          price := some "Variable" }),
    project_suggestions :=
      [{ title := domain ++ " " ++ level ++ " Project",
         description :=
           "Build a practical " ++ domain ++ " project using " ++
           pyJoin ", " (dk.tools_and_technologies.take 3),
         skills_practiced := dk.core_skills.take 3,
         difficulty_level := level,
         estimated_duration := "4-6 weeks",
         resources_needed := [],
         learning_outcomes := [],
         implementation_steps := [] }],
    career_growth_paths :=
      dk.career_levels.map (fun career_level =>
        { title := career_level,
          description :=
            "Professional " ++ domain ++ " role focusing on " ++
            pyJoin ", " (dk.specializations.take 2),
          salary_range := "Competitive",
          required_experience := level ++ " level experience in " ++ domain,
          key_responsibilities := [],
          required_skills := dk.core_skills.take 4,
          growth_opportunities := [],
          industry_demand := "High",
          typical_job_titles := [] }),
    certifications_needed := dk.certification_paths,
    networking_suggestions :=
      ["Join " ++ domain ++ " professional groups",
       "Attend " ++ domain ++ " conferences and meetups",
       "Connect with professionals at " ++ pyJoin ", " (dk.key_companies.take 3)],
    interview_preparation :=
      (dk.core_skills.take 3).map (fun skill => "Study " ++ skill ++ " fundamentals"),
    industry_resources :=
      ["Leading companies: " ++ pyJoin ", " dk.key_companies,
       "Key technologies: " ++ pyJoin ", " dk.tools_and_technologies] }

/-! ## The LLM-facing methods (src/main.py lines 307-418)

The Gemini call self.model.generate_content(prompt).text is modelled
by an oracle of type String to Except String String: an error value
stands for any exception raised by the call (network, auth, quota,
blocked response), an ok value for the reply text (the empty string
for an empty reply). The Python methods themselves are modelled in
the Except monad so that "never raises" is a provable statement, not
a typing artefact. -/

/-- CareerRecommendationSystem.ask_domain_question. -/
def askDomainQuestion (oracle : String → Except String String)
    (domain query : String) : Except String String :=
  match oracle (askPrompt domain query) with
  | .ok t => .ok t
  | .error e => .ok ("Error processing query: " ++ e)

/-- CareerRecommendationSystem._generate_with_simplified_prompt. -/
def generateWithSimplifiedPrompt (oracle : String → Except String String)
    (domain level : String) (dk : DomainProfile) : Except String CareerGuidance :=
  match oracle (simplifiedPrompt domain level) with
  | .error _ => .ok (fallbackGuidance domain level dk)
  | .ok t =>
    if t = "" then .ok (fallbackGuidance domain level dk)
    else
      match parseGuidance t with
      | .ok g => .ok g
      | .error _ => .ok (fallbackGuidance domain level dk)

/-- CareerRecommendationSystem.generate_career_guidance. -/
def generateCareerGuidance (oracle : String → Except String String)
    (domain level : String) (dk : DomainProfile) : Except String CareerGuidance :=
  match oracle (createGuidancePrompt domain level dk) with
  | .error _ => .ok (fallbackGuidance domain level dk)
  | .ok t =>
    if t = "" then .ok (fallbackGuidance domain level dk)
    else
      match parseGuidance t with
      | .ok g => .ok g
      | .error _ => generateWithSimplifiedPrompt oracle domain level dk

/-! ## JobFetcher (src/main.py lines 220-286)

The five board templates in their dict insertion order. The HTTP
request plus HTML scraping of one board is modelled by an oracle
web : platform to url to Except String (List JobListing); an error
stands for any requests.RequestException or scraping exception, an ok
value for the listings scraped from the page. random.choice is
modelled by a draw function r : Nat to Nat giving the index of the
k-th draw (taken modulo the pool size). -/

def jobBoards : List (String × String) :=
  [("LinkedIn", "https://www.linkedin.com/jobs/search/?keywords=\x7bdomain\x7d"),
   ("Glassdoor", "https://www.glassdoor.com/Job/jobs.htm?sc.keyword=\x7bdomain\x7d"),
   ("Internshala", "https://internshala.com/jobs/keyword-\x7bdomain\x7d"),
   ("Indeed", "https://www.indeed.com/jobs?q=\x7bdomain\x7d"),
   ("Naukri", "https://www.naukri.com/\x7bdomain\x7d-jobs")]

/-- self.platforms[platform]. -/
def boardTemplateOf (plat : String) : String :=
  ((jobBoards.find? (fun p => p.1 = plat)).map Prod.snd).getD ""

/-- random.choice from a fixed pool, given the draw value. -/
def pyChoice (pool : List String) (draw : Nat) : String :=
  pool.getD (draw % pool.length) ""

def mockCompanies : List String :=
  ["TechCorp", "Innovate Ltd", "Future Systems", "Global Tech", "NextGen"]

def mockLocations : List String :=
  ["Remote", "Bangalore, India", "San Francisco, CA", "London, UK", "Hybrid"]

def mockTitleWords : List String :=
  ["Developer", "Engineer", "Intern", "Analyst"]

/-- One synthetic listing of _generate_mock_jobs, using three draws. -/
def mockJob (r : Nat → Nat) (k : Nat) (domain plat : String) : JobListing :=
  { job_title := domain ++ " " ++ pyChoice mockTitleWords (r k),
    company := pyChoice mockCompanies (r (k + 1)),
    location := pyChoice mockLocations (r (k + 2)),
    platform := plat,
    link := strReplace (boardTemplateOf plat) "\x7bdomain\x7d" (strReplace domain " " "-"),
    posted_date := "Recent",
    description := "Exciting opportunity in " ++ domain ++ " with " ++ plat }

/-- JobFetcher._generate_mock_jobs: two synthetic listings for one
board. -/
def generateMockJobs (r : Nat → Nat) (k : Nat) (domain plat : String) :
    List JobListing :=
  [mockJob r k domain plat, mockJob r (k + 3) domain plat]

/-- The URL built for one board inside fetch_jobs: spaces become %20
except on Naukri where they become dashes, then the template
placeholder is substituted. -/
def boardUrl (plat tmpl domain : String) : String :=
  strReplace tmpl "\x7bdomain\x7d"
    (if plat ≠ "Naukri" then strReplace domain " " "%20"
     else strReplace domain " " "-")

/-- The per-board loop of fetch_jobs: the scrape result extends the
accumulator, an exception extends it with two mock listings instead
(consuming three draws per mock listing). -/
def fetchJobsGo (web : String → String → Except String (List JobListing))
    (r : Nat → Nat) (domain : String) :
    List (String × String) → Nat → List JobListing → List JobListing
  | [], _, jobs => jobs
  | (plat, tmpl) :: rest, k, jobs =>
    match web plat (boardUrl plat tmpl domain) with
    | .ok scraped => fetchJobsGo web r domain rest k (jobs ++ scraped)
    | .error _ =>
      fetchJobsGo web r domain rest (k + 6) (jobs ++ generateMockJobs r k domain plat)

/-- JobFetcher.fetch_jobs: iterate the five boards, then truncate the
collected list to five entries. -/
def fetchJobs (web : String → String → Except String (List JobListing))
    (r : Nat → Nat) (domain : String) : List JobListing :=
  (fetchJobsGo web r domain jobBoards 0 []).take 5

/-! ## Concrete sample data used by witnesses and counterexamples -/

/-- A small well-formed domain profile (a loader-style dict). -/
def sampleProfile : DomainProfile :=
  { name := "Software Development",
    description := "Modern software development",
    core_skills := ["Programming fundamentals", "Object-oriented design"],
    specializations := ["Full-stack development"],
    tools_and_technologies := ["Python"],
    industry_standards := ["Agile methodology"],
    career_levels := ["Junior Developer", "Senior Developer"],
    certification_paths := ["AWS Certified Developer"],
    key_companies := ["Google"] }

/-- A profile with six core skills and three career levels. -/
def sixSkillProfile : DomainProfile :=
  { name := "D",
    description := "d",
    core_skills := ["s1", "s2", "s3", "s4", "s5", "s6"],
    specializations := [],
    tools_and_technologies := [],
    industry_standards := [],
    career_levels := ["l1", "l2", "l3"],
    certification_paths := [],
    key_companies := [] }

/-- An oracle whose reply never contains JSON. -/
def failOracle : String → Except String String := fun _ => .ok "no json here"

/-- A web oracle on which every board request raises. -/
def errWeb : String → String → Except String (List JobListing) :=
  fun _ _ => .error "network error"

/-- A draw function for the mock-job randomness. -/
def zeroDraw : Nat → Nat := fun _ => 0

/-- The worked JSON-repair example from the spec. -/
def exJsonText : String := "\x7b\"a\": [1,2,]\x7d"

def c4Body : List Char := exJsonText.toList

def c4Comment : List Char := " Hope this helps!".toList

/-- A schema-conforming reply that carries an unknown top-level field. -/
def c7text : String :=
  "\x7b\"domain_overview\": \"ov\", \"unknown_field\": 7, \"certifications_needed\": [\"c1\"]\x7d"

/-- The CareerGuidance value the reply above deserialises to. -/
def c7guidance : CareerGuidance :=
  { domain_overview := "ov",
    current_industry_trends := [],
    skill_roadmap := [],
    recommended_courses := [],
    project_suggestions := [],
    career_growth_paths := [],
    certifications_needed := ["c1"],
    networking_suggestions := [],
    interview_preparation := [],
    industry_resources := [] }

/-- An oracle that always answers with the conforming reply above. -/
def c7oracle : String → Except String String := fun _ => .ok c7text

/-- The single-line-fields loader input of the spec example. -/
def c2Content : String := "Name: X\nDescription: Y\nCore Skills:\n- a\n- b"

/-- The sections dict that input actually parses to. -/
def c2Sections : List (String × FieldVal) :=
  [("name", .str ""), ("description", .str ""), ("core_skills", .list ["a", "b"]),
   ("specializations", .list []), ("tools_and_technologies", .list []),
   ("industry_standards", .list []), ("career_levels", .list []),
   ("certification_paths", .list []), ("key_companies", .list [])]

/-- A one-section loader input used by the shape witness. -/
def c10Content : String := "Core Skills:\n- Modeling"

/-- Its parse result. -/
def c10Sections : List (String × FieldVal) :=
  [("name", .str ""), ("description", .str ""), ("core_skills", .list ["Modeling"]),
   ("specializations", .list []), ("tools_and_technologies", .list []),
   ("industry_standards", .list []), ("career_levels", .list []),
   ("certification_paths", .list []), ("key_companies", .list [])]

/-! ## Shape predicate for the sections dict -/

/-- The nine keys of the sections dict, in insertion order. -/
def nineKeys : List String :=
  ["name", "description", "core_skills", "specializations",
   "tools_and_technologies", "industry_standards", "career_levels",
   "certification_paths", "key_companies"]

/-- Field typing: name and description hold strings, the other keys
hold lists of strings. -/
def fieldShapeOk (k : String) (v : FieldVal) : Bool :=
  if k = "name" || k = "description" then
    match v with | .str _ => true | .list _ => false
  else
    match v with | .str _ => false | .list _ => true

/-- A sections dict has exactly the nine keys, in order, each with the
declared value shape. -/
def SectionsShape (s : List (String × FieldVal)) : Prop :=
  s.map Prod.fst = nineKeys ∧ ∀ kv ∈ s, fieldShapeOk kv.1 kv.2 = true

/-- The per-index importance pattern of the fallback skill roadmap. -/
def importancePattern (k : Nat) : List String :=
  (List.range k).map (fun i => if i < 3 then "Essential" else "Important")

/-! ## Helper lemmas -/

theorem pyEnum_length {α : Type} : ∀ (n : Nat) (l : List α),
    (pyEnum n l).length = l.length := by
  intro n l
  induction l generalizing n with
  | nil => rfl
  | cons a as ih => simp [pyEnum, ih]

theorem pyEnum_map_snd {α : Type} : ∀ (n : Nat) (l : List α),
    (pyEnum n l).map Prod.snd = l := by
  intro n l
  induction l generalizing n with
  | nil => rfl
  | cons a as ih => simp [pyEnum, ih]

theorem map_ite_pyEnum {α : Type} (E I : String) : ∀ (l : List α) (n : Nat),
    (pyEnum n l).map (fun p => if p.1 < 3 then E else I) =
      (List.range' n l.length).map (fun i => if i < 3 then E else I) := by
  intro l
  induction l with
  | nil => intro n; rfl
  | cons a as ih => intro n; simp [pyEnum, List.range', ih]

theorem take_append_left {α : Type} : ∀ (l1 l2 : List α),
    (l1 ++ l2).take l1.length = l1 := by
  intro l1 l2
  induction l1 with
  | nil => rfl
  | cons a as ih => simp [ih]

theorem pyFind_append_singleton : ∀ (l1 l2 : List Char) (c : Char),
    c ∉ l1 → pyFind c (l1 ++ c :: l2) = some l1.length := by
  intro l1 l2 c h
  induction l1 with
  | nil => simp [pyFind]
  | cons a as ih =>
    have ha : ¬(a = c) := fun hac => h (hac ▸ List.mem_cons_self a as)
    have h2 : c ∉ as := fun hm => h (List.mem_cons_of_mem a hm)
    simp [pyFind, ha, ih h2]

theorem dictGet_append_not_mem : ∀ (k : String) (kvs extra : List (String × JsonVal)),
    (∀ p ∈ extra, p.1 ≠ k) → dictGet k (kvs ++ extra) = dictGet k kvs := by
  intro k kvs extra hext
  induction kvs with
  | nil =>
    simp only [List.nil_append, dictGet]
    induction extra with
    | nil => rfl
    | cons p ps ih =>
      have hp : ¬(p.1 = k) := hext p (List.mem_cons_self p ps)
      simp only [dictGet, hp, if_neg]
      exact ih (fun q hq => hext q (List.mem_cons_of_mem p hq))
  | cons p ps ih => by_cases hp : p.1 = k <;> simp [dictGet, hp, ih]

theorem generateWithSimplifiedPrompt_isOk
    (oracle : String → Except String String) (domain level : String)
    (dk : DomainProfile) :
    (generateWithSimplifiedPrompt oracle domain level dk).isOk = true := by
  unfold generateWithSimplifiedPrompt
  cases oracle (simplifiedPrompt domain level) with
  | error e => rfl
  | ok t =>
    by_cases ht : t = ""
    · subst ht; rfl
    · simp only [ht, if_neg, ite_false]
      cases parseGuidance t with
      | ok g => rfl
      | error e => rfl

theorem generateCareerGuidance_isOk
    (oracle : String → Except String String) (domain level : String)
    (dk : DomainProfile) :
    (generateCareerGuidance oracle domain level dk).isOk = true := by
  unfold generateCareerGuidance
  cases oracle (createGuidancePrompt domain level dk) with
  | error e => rfl
  | ok t =>
    by_cases ht : t = ""
    · subst ht; rfl
    · simp only [ht, if_neg, ite_false]
      cases parseGuidance t with
      | ok g => rfl
      | error e => exact generateWithSimplifiedPrompt_isOk oracle domain level dk

theorem fetchJobsGo_error_step
    {web : String → String → Except String (List JobListing)}
    {r : Nat → Nat} {domain plat tmpl : String}
    {rest : List (String × String)} {k : Nat} {jobs : List JobListing} {e : String}
    (h : web plat (boardUrl plat tmpl domain) = .error e) :
    fetchJobsGo web r domain ((plat, tmpl) :: rest) k jobs =
      fetchJobsGo web r domain rest (k + 6) (jobs ++ generateMockJobs r k domain plat) := by
  simp [fetchJobsGo, h]

theorem updateAppend_keys : ∀ (s s' : List (String × FieldVal)) (key item : String),
    updateAppend s key item = .ok s' → s'.map Prod.fst = s.map Prod.fst := by
  intro s
  induction s with
  | nil => intro s' key item h; cases h; rfl
  | cons kv rest ih =>
    intro s' key item h
    obtain ⟨k, v⟩ := kv
    by_cases hk : k = key
    · subst hk
      cases v with
      | list xs =>
        simp only [updateAppend, if_pos] at h
        cases h
        rfl
      | str a => simp [updateAppend] at h
    · simp only [updateAppend, hk, if_neg, not_false_iff] at h
      cases hrec : updateAppend rest key item with
      | error e => rw [hrec] at h; cases h
      | ok r2 =>
        rw [hrec] at h
        have h2 : Except.ok ((k, v) :: r2) = Except.ok s' := h
        cases h2
        simp [ih r2 key item hrec]

theorem updateAppend_shape : ∀ (s s' : List (String × FieldVal)) (key item : String),
    (∀ kv ∈ s, fieldShapeOk kv.1 kv.2 = true) →
    updateAppend s key item = .ok s' →
    ∀ kv ∈ s', fieldShapeOk kv.1 kv.2 = true := by
  intro s
  induction s with
  | nil => intro s' key item _ h; cases h; intro kv hkv; cases hkv
  | cons kv0 rest ih =>
    intro s' key item hshape h
    obtain ⟨k, v⟩ := kv0
    by_cases hk : k = key
    · subst hk
      cases v with
      | list xs =>
        simp only [updateAppend, if_pos] at h
        cases h
        intro kv hkv
        rcases List.mem_cons.mp hkv with h1 | h2
        · subst h1
          have := hshape (k, .list xs) (List.mem_cons_self _ _)
          simpa [fieldShapeOk] using this
        · exact hshape kv (List.mem_cons_of_mem _ h2)
      | str a => simp [updateAppend] at h
    · simp only [updateAppend, hk, if_neg, not_false_iff] at h
      cases hrec : updateAppend rest key item with
      | error e => rw [hrec] at h; cases h
      | ok r2 =>
        rw [hrec] at h
        have h3 : Except.ok ((k, v) :: r2) = Except.ok s' := h
        cases h3
        intro kv hkv
        rcases List.mem_cons.mp hkv with h1 | h2
        · subst h1; exact hshape (k, v) (List.mem_cons_self _ _)
        · exact ih r2 key item
            (fun q hq => hshape q (List.mem_cons_of_mem _ hq)) hrec kv h2

theorem setStrField_keys : ∀ (s : List (String × FieldVal)) (key value : String),
    key ∈ s.map Prod.fst → (setStrField s key value).map Prod.fst = s.map Prod.fst := by
  intro s
  induction s with
  | nil => intro key value h; cases h
  | cons kv0 rest ih =>
    intro key value h
    obtain ⟨k, v⟩ := kv0
    by_cases hk : k = key
    · simp [setStrField, hk]
    · have hmem : key ∈ rest.map Prod.fst := by
        rcases List.mem_cons.mp h with h1 | h2
        · exact absurd h1.symm hk
        · exact h2
      simp [setStrField, hk, ih key value hmem]

theorem setStrField_shape : ∀ (s : List (String × FieldVal)) (key value : String),
    fieldShapeOk key (.str value) = true →
    (∀ kv ∈ s, fieldShapeOk kv.1 kv.2 = true) →
    ∀ kv ∈ setStrField s key value, fieldShapeOk kv.1 kv.2 = true := by
  intro s
  induction s with
  | nil =>
    intro key value hkey _ kv hkv
    simp only [setStrField] at hkv
    rcases List.mem_cons.mp hkv with h1 | h2
    · subst h1; exact hkey
    · cases h2
  | cons kv0 rest ih =>
    intro key value hkey hshape kv hkv
    obtain ⟨k, v⟩ := kv0
    by_cases hk : k = key
    · simp only [setStrField, hk, if_pos] at hkv
      rcases List.mem_cons.mp hkv with h1 | h2
      · subst h1; simpa [hk] using hkey
      · exact hshape kv (List.mem_cons_of_mem _ h2)
    · simp only [setStrField, hk, if_neg, not_false_iff] at hkv
      rcases List.mem_cons.mp hkv with h1 | h2
      · subst h1; exact hshape (k, v) (List.mem_cons_self _ _)
      · exact ih key value hkey
          (fun q hq => hshape q (List.mem_cons_of_mem _ hq)) kv h2

theorem parseDomainLines_shape :
    ∀ (ls : List (List Char)) (cur : Option String)
      (s s' : List (String × FieldVal)),
    SectionsShape s → parseDomainLines ls cur s = .ok s' → SectionsShape s' := by
  intro ls
  induction ls with
  | nil =>
    intro cur s s' hs h
    cases h
    exact hs
  | cons rawLine rest ih =>
    intro cur s s' hs h
    simp only [parseDomainLines] at h
    split at h
    · exact ih _ _ _ hs h
    · split at h
      · cases hup : updateAppend s (cur.getD "") (String.mk (pyStrip ((pyStrip rawLine).drop 1))) with
        | error e =>
          rw [hup] at h
          have h2 : (Except.error e : Except String (List (String × FieldVal))) = Except.ok s' := h
          cases h2
        | ok s2 =>
          rw [hup] at h
          have h2 : parseDomainLines rest cur s2 = Except.ok s' := h
          refine ih _ _ _ ⟨?_, ?_⟩ h2
          · rw [updateAppend_keys s s2 _ _ hup]
            exact hs.1
          · exact updateAppend_shape s s2 _ _ hs.2 hup
      · split at h
        · split at h
          · refine ih _ _ _ ⟨?_, ?_⟩ h
            · rw [setStrField_keys]
              · exact hs.1
              · rw [hs.1]; decide
            · exact setStrField_shape s "name" _ rfl hs.2
          · split at h
            · refine ih _ _ _ ⟨?_, ?_⟩ h
              · rw [setStrField_keys]
                · exact hs.1
                · rw [hs.1]; decide
              · exact setStrField_shape s "description" _ rfl hs.2
            · exact ih _ _ _ hs h
        · exact ih _ _ _ hs h

/-! ## Claim theorems -/

/-- C10: every domain profile produced by the loader — whether parsed
from an arbitrary file content string (when the parse returns at all)
or taken from the hardcoded default — has exactly the nine fields
name, description, core_skills, specializations,
tools_and_technologies, industry_standards, career_levels,
certification_paths, key_companies, with name and description holding
strings and the other seven holding (possibly empty) lists of
strings; no field is ever absent regardless of the input content. -/
theorem c10_profile_shape :
    (∀ (content : String) (s : List (String × FieldVal)),
      parseDomainContent content = .ok s → SectionsShape s) ∧
    SectionsShape defaultDomainSections := by
  constructor
  · intro content s h
    exact parseDomainLines_shape _ none initSections s ⟨rfl, by decide⟩ h
  · exact ⟨rfl, by decide⟩

/-- Witness for C10 at a concrete loader input. -/
theorem c10_profile_shape_witness : SectionsShape c10Sections :=
  c10_profile_shape.1 c10Content c10Sections rfl

/-- C2 (code bug): on the single-line input Name: X / Description: Y /
Core Skills: / - a / - b, the parser does capture the two core skills,
but it leaves both the name and the description fields empty — the
Name:/Description: prefixed value lines are only honoured when a bare
"Name:"/"Description:" header line precedes them, so the contract that
description equals "Y" and name equals "X" fails on the code. -/
theorem c2_loader_single_line_fields :
    parseDomainContent c2Content = .ok c2Sections ∧
    lookupSec "core_skills" c2Sections = some (.list ["a", "b"]) ∧
    lookupSec "description" c2Sections = some (.str "") ∧
    lookupSec "name" c2Sections = some (.str "") :=
  ⟨rfl, rfl, rfl, rfl⟩

/-- C3 (amended): the fallback generator of src/main.py always emits
exactly two career-path entries (Junior and Mid-level) regardless of
the profile's career_levels list, while the fallback generator of
src/original.py emits exactly one CareerPath per declared career
level; both are pure functions of (domain, level, profile) and
consult no LLM oracle. -/
theorem c3_career_paths_amended :
    ∀ (domain level : String) (dk : DomainProfile),
    (fallbackGuidance domain level dk).career_growth_paths.length = 2 ∧
    (origFallbackGuidance domain level dk).career_growth_paths.length =
      dk.career_levels.length := by
  intro domain level dk
  constructor
  · rfl
  · simp [origFallbackGuidance]

/-- Counterexample for C3 as stated: a profile with three career
levels for which the main fallback still emits two paths. -/
theorem c3_career_paths_counterexample :
    (fallbackGuidance "D" "Beginner" sixSkillProfile).career_growth_paths.length ≠
      sixSkillProfile.career_levels.length := by
  decide

/-- C6: for every behaviour of the LLM oracle, ask_domain_question
returns a value (on an oracle error it is the literal error string
embedding the exception message) and generate_career_guidance returns
a CareerGuidance value; neither propagates an error to the caller. -/
theorem c6_never_raises :
    ∀ (oracle : String → Except String String) (domain level query : String)
      (dk : DomainProfile),
    askDomainQuestion oracle domain query =
      .ok (match oracle (askPrompt domain query) with
           | .ok t => t
           | .error e => "Error processing query: " ++ e) ∧
    (generateCareerGuidance oracle domain level dk).isOk = true := by
  intro oracle domain level query dk
  constructor
  · cases h : oracle (askPrompt domain query) <;> simp [askDomainQuestion, h]
  · exact generateCareerGuidance_isOk oracle domain level dk

/-- C8: when the LLM reply is empty, or when parsing fails on the
original attempt and the simplified attempt also yields an empty or
unparseable reply, generate_career_guidance returns exactly the
record produced by calling _generate_fallback_guidance directly on
the same (domain, level, profile) — a deterministic pure function of
those three arguments. -/
theorem c8_fallback_equiv :
    ∀ (oracle : String → Except String String) (domain level : String)
      (dk : DomainProfile),
    (oracle (createGuidancePrompt domain level dk) = .ok "" →
      generateCareerGuidance oracle domain level dk =
        .ok (fallbackGuidance domain level dk)) ∧
    (∀ t t2 : String,
      oracle (createGuidancePrompt domain level dk) = .ok t → t ≠ "" →
      (parseGuidance t).isOk = false →
      oracle (simplifiedPrompt domain level) = .ok t2 →
      (t2 = "" ∨ (parseGuidance t2).isOk = false) →
      generateCareerGuidance oracle domain level dk =
        .ok (fallbackGuidance domain level dk)) := by
  intro oracle domain level dk
  constructor
  · intro h
    simp [generateCareerGuidance, h]
  · intro t t2 h1 h2 h3 h4 h5
    have hperr : ∃ e, parseGuidance t = .error e := by
      cases hp : parseGuidance t with
      | ok g => rw [hp] at h3; simp [Except.isOk, Except.toBool] at h3
      | error e => exact ⟨e, rfl⟩
    obtain ⟨e, he⟩ := hperr
    have hsimpl : generateWithSimplifiedPrompt oracle domain level dk =
        .ok (fallbackGuidance domain level dk) := by
      unfold generateWithSimplifiedPrompt
      rw [h4]
      by_cases ht2 : t2 = ""
      · simp [ht2]
      · have hperr2 : ∃ e2, parseGuidance t2 = .error e2 := by
          rcases h5 with h5a | h5b
          · exact absurd h5a ht2
          · cases hp : parseGuidance t2 with
            | ok g => rw [hp] at h5b; simp [Except.isOk, Except.toBool] at h5b
            | error e2 => exact ⟨e2, rfl⟩
        obtain ⟨e2, he2⟩ := hperr2
        simp [ht2, he2]
    simp [generateCareerGuidance, h1, h2, he, hsimpl]

/-- Witness for C8: a concrete oracle whose reply parses on neither
attempt drives generate_career_guidance to the direct fallback. -/
theorem c8_fallback_equiv_witness :
    generateCareerGuidance failOracle "Data Science" "Beginner" sampleProfile =
      .ok (fallbackGuidance "Data Science" "Beginner" sampleProfile) :=
  (c8_fallback_equiv failOracle "Data Science" "Beginner" sampleProfile).2
    "no json here" "no json here" rfl (by decide) (by decide) rfl
    (Or.inr (by decide))

theorem fetchJobsGo_all_error
    {web : String → String → Except String (List JobListing)} {r : Nat → Nat}
    {domain : String}
    (hw : ∀ p u, ∃ e, web p u = Except.error e) :
    fetchJobsGo web r domain jobBoards 0 [] =
      generateMockJobs r 0 domain "LinkedIn" ++
      generateMockJobs r 6 domain "Glassdoor" ++
      generateMockJobs r 12 domain "Internshala" ++
      generateMockJobs r 18 domain "Indeed" ++
      generateMockJobs r 24 domain "Naukri" := by
  obtain ⟨e1, h1⟩ := hw "LinkedIn"
    (boardUrl "LinkedIn" "https://www.linkedin.com/jobs/search/?keywords=\x7bdomain\x7d" domain)
  obtain ⟨e2, h2⟩ := hw "Glassdoor"
    (boardUrl "Glassdoor" "https://www.glassdoor.com/Job/jobs.htm?sc.keyword=\x7bdomain\x7d" domain)
  obtain ⟨e3, h3⟩ := hw "Internshala"
    (boardUrl "Internshala" "https://internshala.com/jobs/keyword-\x7bdomain\x7d" domain)
  obtain ⟨e4, h4⟩ := hw "Indeed"
    (boardUrl "Indeed" "https://www.indeed.com/jobs?q=\x7bdomain\x7d" domain)
  obtain ⟨e5, h5⟩ := hw "Naukri"
    (boardUrl "Naukri" "https://www.naukri.com/\x7bdomain\x7d-jobs" domain)
  show fetchJobsGo web r domain
      [("LinkedIn", "https://www.linkedin.com/jobs/search/?keywords=\x7bdomain\x7d"),
       ("Glassdoor", "https://www.glassdoor.com/Job/jobs.htm?sc.keyword=\x7bdomain\x7d"),
       ("Internshala", "https://internshala.com/jobs/keyword-\x7bdomain\x7d"),
       ("Indeed", "https://www.indeed.com/jobs?q=\x7bdomain\x7d"),
       ("Naukri", "https://www.naukri.com/\x7bdomain\x7d-jobs")] 0 [] = _
  rw [fetchJobsGo_error_step h1, fetchJobsGo_error_step h2,
      fetchJobsGo_error_step h3, fetchJobsGo_error_step h4,
      fetchJobsGo_error_step h5]
  simp [fetchJobsGo]

/-- C5: fetch_jobs returns at most five listings for every oracle
behaviour, and in the run where every board request raises it returns
exactly five synthetic listings, each carrying a non-empty platform
name drawn from the five boards. -/
theorem c5_fetch_jobs :
    ∀ (web : String → String → Except String (List JobListing))
      (r : Nat → Nat) (domain : String),
    (fetchJobs web r domain).length ≤ 5 ∧
    ((∀ p u, ∃ e, web p u = Except.error e) →
      (fetchJobs web r domain).length = 5 ∧
      ∀ j ∈ fetchJobs web r domain,
        j.platform ≠ "" ∧
        j.platform ∈ ["LinkedIn", "Glassdoor", "Internshala", "Indeed", "Naukri"]) := by
  intro web r domain
  constructor
  · show ((fetchJobsGo web r domain jobBoards 0 []).take 5).length ≤ 5
    rw [List.length_take]
    exact Nat.min_le_left _ _
  · intro hw
    have hgo := @fetchJobsGo_all_error web r domain hw
    constructor
    · show ((fetchJobsGo web r domain jobBoards 0 []).take 5).length = 5
      rw [hgo]
      simp [generateMockJobs]
    · intro j hj
      have hj2 : j ∈ (fetchJobsGo web r domain jobBoards 0 []).take 5 := hj
      rw [hgo] at hj2
      simp only [generateMockJobs, List.cons_append, List.nil_append,
        List.take, List.mem_cons, List.not_mem_nil, or_false] at hj2
      rcases hj2 with rfl | rfl | rfl | rfl | rfl <;>
        exact ⟨by simp [mockJob], by simp [mockJob]⟩

/-- C9: in the run where every board request raises, the five
returned listings carry the platforms LinkedIn, LinkedIn, Glassdoor,
Glassdoor, Internshala in that order, so Indeed and Naukri listings
never appear. -/
theorem c9_platform_sequence :
    ∀ (web : String → String → Except String (List JobListing))
      (r : Nat → Nat) (domain : String),
    (∀ p u, ∃ e, web p u = Except.error e) →
    (fetchJobs web r domain).map (fun j => j.platform) =
      ["LinkedIn", "LinkedIn", "Glassdoor", "Glassdoor", "Internshala"] ∧
    "Indeed" ∉ (fetchJobs web r domain).map (fun j => j.platform) ∧
    "Naukri" ∉ (fetchJobs web r domain).map (fun j => j.platform) := by
  intro web r domain hw
  have hgo := @fetchJobsGo_all_error web r domain hw
  have hmap : (fetchJobs web r domain).map (fun j => j.platform) =
      ["LinkedIn", "LinkedIn", "Glassdoor", "Glassdoor", "Internshala"] := by
    show ((fetchJobsGo web r domain jobBoards 0 []).take 5).map (fun j => j.platform) = _
    rw [hgo]
    simp [generateMockJobs, mockJob]
  refine ⟨hmap, ?_, ?_⟩ <;> rw [hmap] <;> decide

/-- Witness for C5: the all-error web oracle on the domain from the
spec example. -/
theorem c5_fetch_jobs_witness :
    (fetchJobs errWeb zeroDraw "Data Science").length = 5 ∧
    ∀ j ∈ fetchJobs errWeb zeroDraw "Data Science",
      j.platform ≠ "" ∧
      j.platform ∈ ["LinkedIn", "Glassdoor", "Internshala", "Indeed", "Naukri"] :=
  (c5_fetch_jobs errWeb zeroDraw "Data Science").2
    (fun _ _ => ⟨"network error", rfl⟩)

/-- Witness for C9 at the same concrete oracles. -/
theorem c9_platform_sequence_witness :
    (fetchJobs errWeb zeroDraw "Machine Learning").map (fun j => j.platform) =
      ["LinkedIn", "LinkedIn", "Glassdoor", "Glassdoor", "Internshala"] :=
  (c9_platform_sequence errWeb zeroDraw "Machine Learning"
    (fun _ _ => ⟨"network error", rfl⟩)).1

/-- C1 (amended): for a profile with N > 0 core skills, the fallback
skill roadmap of src/main.py has exactly min(N, 5) entries — one per
core skill among the first five — with entries at index < 3 marked
Essential and later ones Important; the uncapped fallback of
src/original.py has exactly N entries with the same importance
pattern. -/
theorem c1_skill_roadmap_capped :
    ∀ (domain level : String) (dk : DomainProfile),
    0 < dk.core_skills.length →
    (fallbackGuidance domain level dk).skill_roadmap.length =
      min dk.core_skills.length 5 ∧
    (fallbackGuidance domain level dk).skill_roadmap.map
      (fun s => s.skill_name) = dk.core_skills.take 5 ∧
    (fallbackGuidance domain level dk).skill_roadmap.map
      (fun s => s.importance_level) =
      importancePattern (min dk.core_skills.length 5) ∧
    (origFallbackGuidance domain level dk).skill_roadmap.length =
      dk.core_skills.length ∧
    (origFallbackGuidance domain level dk).skill_roadmap.map
      (fun s => s.importance_level) = importancePattern dk.core_skills.length := by
  intro domain level dk h
  have hemp : dk.core_skills.isEmpty = false := by
    cases hcs : dk.core_skills with
    | nil => rw [hcs] at h; simp at h
    | cons a as => rfl
  have hroad : (fallbackGuidance domain level dk).skill_roadmap =
      fallbackSkillRoadmap domain level dk.core_skills := rfl
  refine ⟨?_, ?_, ?_, ?_, ?_⟩
  · rw [hroad]
    simp only [fallbackSkillRoadmap, hemp, Bool.false_eq_true, if_false]
    rw [List.length_map, pyEnum_length, List.length_take, Nat.min_comm]
  · rw [hroad]
    simp only [fallbackSkillRoadmap, hemp, Bool.false_eq_true, if_false]
    rw [List.map_map]
    exact pyEnum_map_snd 0 (dk.core_skills.take 5)
  · rw [hroad]
    simp only [fallbackSkillRoadmap, hemp, Bool.false_eq_true, if_false]
    rw [List.map_map, importancePattern, List.range_eq_range']
    have hm := map_ite_pyEnum "Essential" "Important" (dk.core_skills.take 5) 0
    rw [List.length_take, Nat.min_comm] at hm
    exact hm
  · have horig : (origFallbackGuidance domain level dk).skill_roadmap =
        (pyEnum 0 dk.core_skills).map (fun p =>
          ({ skill_name := p.2,
             importance_level := if p.1 < 3 then "Essential" else "Important",
             time_to_master := if level = "Beginner" then "3-6 months" else "1-2 months",
             prerequisites := [], resources := [], industry_applications := [],
             proficiency_metrics := [] } : SkillDetail)) := rfl
    rw [horig, List.length_map, pyEnum_length]
  · have horig : (origFallbackGuidance domain level dk).skill_roadmap =
        (pyEnum 0 dk.core_skills).map (fun p =>
          ({ skill_name := p.2,
             importance_level := if p.1 < 3 then "Essential" else "Important",
             time_to_master := if level = "Beginner" then "3-6 months" else "1-2 months",
             prerequisites := [], resources := [], industry_applications := [],
             proficiency_metrics := [] } : SkillDetail)) := rfl
    rw [horig, List.map_map, importancePattern, List.range_eq_range']
    exact map_ite_pyEnum "Essential" "Important" dk.core_skills 0

/-- Counterexample for C1 as stated: a profile with six core skills
whose fallback roadmap has five entries, not six. -/
theorem c1_skill_roadmap_counterexample :
    (fallbackGuidance "D" "Beginner" sixSkillProfile).skill_roadmap.length ≠
      sixSkillProfile.core_skills.length := by
  decide

/-- Witness for C1 at a concrete two-skill profile. -/
theorem c1_skill_roadmap_witness :
    0 < sampleProfile.core_skills.length ∧
    (fallbackGuidance "Data Science" "Beginner" sampleProfile).skill_roadmap.length =
      min sampleProfile.core_skills.length 5 :=
  ⟨by decide,
   (c1_skill_roadmap_capped "Data Science" "Beginner" sampleProfile (by decide)).1⟩

/-- C7: a reply that parses into the CareerGuidance schema is
returned field-for-field by generate_career_guidance, and unknown
fields — at the top level or inside a nested SkillDetail record — are
ignored by the deserialisation: appending bindings with unknown keys
leaves the constructed record unchanged. -/
theorem c7_valid_json_reply :
    (∀ (oracle : String → Except String String) (domain level : String)
       (dk : DomainProfile) (t : String) (g : CareerGuidance),
      oracle (createGuidancePrompt domain level dk) = .ok t → t ≠ "" →
      parseGuidance t = .ok g →
      generateCareerGuidance oracle domain level dk = .ok g) ∧
    (∀ (kvs extra : List (String × JsonVal)),
      (∀ p ∈ extra, p.1 ∉ guidanceKeys) →
      careerGuidanceOfJson (.obj (kvs ++ extra)) = careerGuidanceOfJson (.obj kvs)) ∧
    (∀ (kvs extra : List (String × JsonVal)),
      (∀ p ∈ extra, p.1 ∉ skillDetailKeys) →
      skillDetailOfJson (.obj (kvs ++ extra)) = skillDetailOfJson (.obj kvs)) := by
  refine ⟨?_, ?_, ?_⟩
  · intro oracle domain level dk t g h1 h2 h3
    simp [generateCareerGuidance, h1, h2, h3]
  · intro kvs extra hext
    have hdg : ∀ k, k ∈ guidanceKeys → dictGet k (kvs ++ extra) = dictGet k kvs := by
      intro k hk
      refine dictGet_append_not_mem k kvs extra ?_
      intro p hp hpk
      exact hext p hp (by rw [hpk]; exact hk)
    simp only [careerGuidanceOfJson]
    rw [hdg "domain_overview" (by decide), hdg "current_industry_trends" (by decide),
        hdg "skill_roadmap" (by decide), hdg "recommended_courses" (by decide),
        hdg "project_suggestions" (by decide), hdg "career_growth_paths" (by decide),
        hdg "certifications_needed" (by decide),
        hdg "networking_suggestions" (by decide),
        hdg "interview_preparation" (by decide),
        hdg "industry_resources" (by decide)]
  · intro kvs extra hext
    have hdg : ∀ k, k ∈ skillDetailKeys → dictGet k (kvs ++ extra) = dictGet k kvs := by
      intro k hk
      refine dictGet_append_not_mem k kvs extra ?_
      intro p hp hpk
      exact hext p hp (by rw [hpk]; exact hk)
    simp only [skillDetailOfJson]
    rw [hdg "skill_name" (by decide), hdg "importance_level" (by decide),
        hdg "time_to_master" (by decide), hdg "prerequisites" (by decide),
        hdg "resources" (by decide), hdg "industry_applications" (by decide),
        hdg "proficiency_metrics" (by decide)]

/-- Witness for C7: a conforming reply carrying an unknown top-level
field deserialises to exactly the expected record, and
generate_career_guidance returns it unchanged. -/
theorem c7_valid_json_reply_witness :
    generateCareerGuidance c7oracle "Data Science" "Beginner" sampleProfile =
      .ok c7guidance :=
  c7_valid_json_reply.1 c7oracle "Data Science" "Beginner" sampleProfile
    c7text c7guidance rfl (by decide) rfl

/-- C4: for a reply consisting of a JSON object followed by trailing
commentary containing no closing brace, when the whole-text parse
fails the extractor isolates exactly the substring from the first
open brace to the last close brace (the object) and reparses it after
the repair pass; and the repair pass removes trailing commas before
closing brackets, so the worked example parses to the expected
object. -/
theorem c4_extract_json :
    (∀ (body comment : List Char),
      body ≠ [] → body.head? = some '{' → body.getLast? = some '}' →
      '}' ∉ comment → (jsonLoads (body ++ comment)).isOk = false →
      extractJson (body ++ comment) = jsonLoads (fixJsonIssues body)) ∧
    extractJson exJsonText.toList = .ok (.obj [("a", .arr [.num 1, .num 2])]) ∧
    fixTrailingCommas exJsonText.toList = "\x7b\"a\": [1,2]\x7d".toList := by
  refine ⟨?_, rfl, rfl⟩
  intro body comment hne hhead hlast hcom hfail
  obtain ⟨b0, bt, rfl⟩ : ∃ b0 bt, body = b0 :: bt := by
    cases body with
    | nil => exact absurd rfl hne
    | cons b0 bt => exact ⟨b0, bt, rfl⟩
  have hb0 : b0 = '{' := by simpa using hhead
  subst hb0
  obtain ⟨e, he⟩ : ∃ e, jsonLoads (('{' :: bt) ++ comment) = .error e := by
    cases hj : jsonLoads (('{' :: bt) ++ comment) with
    | ok v => rw [hj] at hfail; simp [Except.isOk, Except.toBool] at hfail
    | error e => exact ⟨e, rfl⟩
  have hfind : pyFind '{' (('{' :: bt) ++ comment) = some 0 := by
    simp [pyFind]
  have hlastrev : (('{' :: bt).reverse).head? = some '}' := by
    rw [List.head?_reverse]; exact hlast
  obtain ⟨t, ht⟩ : ∃ t, ('{' :: bt).reverse = '}' :: t := by
    cases hr : ('{' :: bt).reverse with
    | nil => rw [hr] at hlastrev; simp at hlastrev
    | cons x xs =>
      rw [hr] at hlastrev
      simp only [List.head?_cons, Option.some.injEq] at hlastrev
      exact ⟨xs, by rw [hlastrev]⟩
  have hcomrev : '}' ∉ comment.reverse := fun hm => hcom (List.mem_reverse.mp hm)
  have hfr : pyFind '}' ((('{' :: bt) ++ comment).reverse) = some comment.length := by
    rw [List.reverse_append, ht, pyFind_append_singleton comment.reverse t '}' hcomrev,
        List.length_reverse]
  have hrfind : pyRFind '}' (('{' :: bt) ++ comment) = some bt.length := by
    simp only [pyRFind, hfr]
    congr 1
    simp only [List.length_append, List.length_cons]
    omega
  have hslice : (((('{' :: bt) ++ comment).drop 0).take (bt.length + 1 - 0)) =
      '{' :: bt := by
    rw [List.drop_zero, Nat.sub_zero]
    exact take_append_left ('{' :: bt) comment
  simp only [extractJson, he, hfind, hrfind]
  rw [if_pos (Nat.succ_pos bt.length)]
  rw [hslice]

/-- Witness for C4: the worked example followed by brace-free
commentary is extracted by slicing to the object and repairing it. -/
theorem c4_extract_json_witness :
    extractJson (c4Body ++ c4Comment) = jsonLoads (fixJsonIssues c4Body) :=
  c4_extract_json.1 c4Body c4Comment (by decide) (by decide) (by decide)
    (by decide) (by decide)
